import Mathlib

/-!
Verification of the coordination layer of the scraper_cz repository:
a shallow embedding of its state machine (`backend/scraper/state_machine.py`),
WebSocket connection manager (`backend/api/websocket_handler.py`),
court-selection decision handling (`backend/scraper/bloomberg_scraper.py`),
PDF capture race (`backend/scraper/cmecf_page_handlers/document_detail_handler.py`)
and per-case processing loop (`backend/scraper/cmecf_scraper.py`),
with theorems settling the specified properties of each.
-/

namespace ScraperCz

/-! ## State machine (backend/scraper/state_machine.py) -/

/-- The `ScraperState` enum (lines 10-25 of state_machine.py). -/
inductive ScraperState where
  | idle
  | initializing
  | logging_in
  | searching
  | awaiting_court_selection
  | processing_results
  | navigating_to_document
  | extracting_entries
  | awaiting_transcript_selection
  | downloading
  | returning_to_results
  | completed
  | error
  | cancelled
deriving DecidableEq, Repr

/-- One entry of `state_history` as appended by `transition_to`
(lines 59-64): the dict with keys `state`, `previous_state`, `message`.
The wall-clock `timestamp` field is outside the embedding (it does not
affect any control flow). -/
structure HistoryEntry where
  state : ScraperState
  previous_state : Option ScraperState
  message : String
deriving DecidableEq, Repr

/-- The mutable fields of the Python `StateMachine` class (lines 31-36).
The `on_state_change` callback is passed explicitly to `transition_to`
instead of being stored, so the structure stays first-order. -/
structure StateMachine where
  current_state : ScraperState
  previous_state : Option ScraperState
  state_history : List HistoryEntry
  context : List (String × String)
deriving DecidableEq, Repr

/-- `StateMachine.__init__`: current state IDLE, empty history and context. -/
def initStateMachine : StateMachine :=
  { current_state := ScraperState.idle
    previous_state := none
    state_history := []
    context := [] }

/-- The registered state-change callback: an async function that may raise an
exception; the `Except` codomain records normal return versus a raised error. -/
def Observer : Type :=
  ScraperState → Option ScraperState → String → Except String Unit

/-- `StateMachine.transition_to` (lines 47-70): sets `previous_state` to the
old current state, sets `current_state`, appends a history entry, then — with
no try/except — awaits the callback if one is set.  The returned pair is the
machine after the update together with the outcome of the callback call
(`Except.error` = the callback raised, and the exception leaves
`transition_to`). -/
def transition_to (m : StateMachine) (newState : ScraperState) (msg : String)
    (obs : Option Observer) : StateMachine × Except String Unit :=
  let prev := m.current_state
  let m2 : StateMachine :=
    { m with
      previous_state := some prev
      current_state := newState
      state_history := m.state_history ++
        [{ state := newState, previous_state := some prev, message := msg }] }
  match obs with
  | none => (m2, Except.ok ())
  | some f => (m2, f newState (some prev) msg)

/-- `StateMachine.reset` (lines 151-157): back to IDLE, history and context
cleared, `previous_state` cleared. -/
def StateMachine.reset (_m : StateMachine) : StateMachine :=
  initStateMachine

/-- A sequence of `transition_to` calls (state, message), no interleaved
reset.  The machine component of `transition_to` does not depend on the
observer (the update happens before the callback), so the observer is
elided here. -/
def applyTransitions (m : StateMachine) (ts : List (ScraperState × String)) :
    StateMachine :=
  ts.foldl (fun acc t => (transition_to acc t.1 t.2 none).1) m

/-! ## Connection manager (backend/api/websocket_handler.py) -/

/-- The nested payload read by `_handle_court_selection`:
`response.get('data', {}).get('selected_court')` and `.get('action')`. -/
structure UserRespData where
  action : Option String
  selected_court : Option String
deriving DecidableEq, Repr

/-- A user-response dict as delivered to `set_user_response` and returned by
`wait_for_user_response`.  A missing `data` key is `none`.  (A delivered
response is modelled as a non-empty dict; the Python `if not response` branch
in callers corresponds to the `Option.none` timeout value.) -/
structure UserResponse where
  data : Option UserRespData
deriving DecidableEq, Repr

/-- An `asyncio.Future` as used by the manager: `id` is the object identity
(each `create_future()` call yields a fresh one), `done`/`result` its
resolution state.  `set_result r` turns `done := false` into
`done := true, result := some r`. -/
structure Future where
  id : Nat
  done : Bool
  result : Option UserResponse
deriving DecidableEq, Repr

/-- Lookup in a Python-dict-like association list (first match). -/
def assocLookup (l : List (String × Future)) (k : String) : Option Future :=
  (l.find? (fun p => p.1 == k)).map (fun p => p.2)

/-- Python dict assignment `d[k] = v`: overwrite an existing key in place,
append a new key at the end. -/
def assocSet : List (String × Future) → String → Future → List (String × Future)
  | [], k, v => [(k, v)]
  | (k0, v0) :: rest, k, v =>
    if k0 == k then (k0, v) :: rest else (k0, v0) :: assocSet rest k v

/-- Python dict deletion `del d[k]` guarded by `if k in d`. -/
def assocErase : List (String × Future) → String → List (String × Future)
  | [], _ => []
  | (k0, v0) :: rest, k =>
    if k0 == k then rest else (k0, v0) :: assocErase rest k

/-- The two in-process maps of `ConnectionManager.__init__` (lines 26-28):
`active_connections` (client ids with a websocket) and `pending_responses`
(client id to pending future). -/
structure ConnectionManager where
  active_connections : List String
  pending_responses : List (String × Future)
deriving DecidableEq, Repr

/-- A freshly created, unresolved future (`asyncio.get_event_loop().create_future()`). -/
def newPendingFuture (fid : Nat) : Future :=
  { id := fid, done := false, result := none }

/-- The registration step of `ConnectionManager.wait_for_user_response`
(lines 148-150): `future = ...create_future(); self.pending_responses[client_id] = future`.
There is no membership check and no raise statement, so the `Except` codomain
(present so that the specified fail-fast behaviour is statable) always
carries `Except.ok`; dict assignment overwrites any handle already stored
for `client_id`. -/
def wait_for_user_response_register (m : ConnectionManager) (cid : String)
    (fid : Nat) : Except String ConnectionManager :=
  Except.ok
    { m with
      pending_responses := assocSet m.pending_responses cid (newPendingFuture fid) }

/-- `ConnectionManager.set_user_response` (lines 164-176): if a future is
pending for the client and not yet done, resolve it with the response;
otherwise do nothing.  The method body contains no raise path, so the
embedding is a total function on the manager state. -/
def set_user_response (m : ConnectionManager) (cid : String)
    (resp : UserResponse) : ConnectionManager :=
  match assocLookup m.pending_responses cid with
  | none => m
  | some f =>
    if f.done then m
    else
      { m with
        pending_responses :=
          assocSet m.pending_responses cid
            { f with done := true, result := some resp } }

/-- `ConnectionManager.disconnect` (lines 36-40): remove the client from
`active_connections` if present.  `pending_responses` is not touched. -/
def disconnect (m : ConnectionManager) (cid : String) : ConnectionManager :=
  if m.active_connections.contains cid then
    { m with active_connections := m.active_connections.erase cid }
  else m

/-- The effect on the manager of `websocket_endpoint`'s two exception
handlers (lines 223-229): both the `WebSocketDisconnect` branch and the
generic `Exception` branch only call `connection_manager.disconnect`. -/
def websocket_endpoint_on_disconnect (m : ConnectionManager) (cid : String) :
    ConnectionManager :=
  disconnect m cid

/-- Result of one `ConnectionManager.send_event` call (lines 42-58). -/
inductive SendOutcome where
  | noConnection
  | sentLogged
  | errorLogged (msg : String)
deriving DecidableEq, Repr

/-- `ConnectionManager.send_event`: if the client has no active connection the
call falls through (no-op); otherwise serialization and `send_json` run
inside `try`, and any exception is caught and logged at error level.
`attempt` models the combined outcome of serialization plus the websocket
send; the `Except` codomain of the function records whether `send_event`
itself raises. -/
def send_event (m : ConnectionManager) (cid : String)
    (attempt : Except String Unit) : Except String SendOutcome :=
  if m.active_connections.contains cid then
    match attempt with
    | Except.ok _ => Except.ok SendOutcome.sentLogged
    | Except.error e => Except.ok (SendOutcome.errorLogged e)
  else Except.ok SendOutcome.noConnection

/-! ## Court selection (backend/scraper/bloomberg_scraper.py) -/

/-- The timeout passed by `_handle_court_selection` to
`wait_for_user_response` (line 186: `timeout=300.0`). -/
def court_selection_timeout_seconds : Nat := 300

/-- The decision logic of `BloombergScraper._handle_court_selection`
(lines 183-209) after the response wait: `resp = none` is the timeout value
(`wait_for_user_response` returns `None` on `asyncio.TimeoutError`).
Returns the selected court together with a flag that is `true` exactly when
the timeout warning (`"Court selection timeout, using first option"`) is
logged.  `options[0]` on an empty list raises IndexError, hence the `Option`
codomain via `head?`. -/
def handle_court_selection (resp : Option UserResponse)
    (options : List String) : Option (String × Bool) :=
  match resp with
  | none => options.head?.map (fun c => (c, true))
  | some r =>
    match (match r.data with | some d => d.selected_court | none => none) with
    | none => options.head?.map (fun c => (c, false))
    | some c =>
      if c = "" then options.head?.map (fun c2 => (c2, false))
      else some (c, false)

/-! ## PDF capture (backend/scraper/cmecf_page_handlers/document_detail_handler.py) -/

/-- The PDF magic bytes `%PDF` (bytes 37, 80, 68, 70). -/
def pdf_magic : List Nat := [37, 80, 68, 70]

/-- The byte `<` (60), the code's test for an HTML error page. -/
def htmlOpen : List Nat := [60]

/-- Whether `needle` occurs as a contiguous substring of `hay`
(Python's `needle in hay` on strings). -/
def containsSubstring (hay needle : String) : Bool :=
  go needle.toList hay.toList
where
  go (needle : List Char) : List Char → Bool
    | [] => needle.isEmpty
    | c :: rest => needle.isPrefixOf (c :: rest) || go needle rest

/-- The URL gate of `intercept_pdf_response` (line 332):
`'show_temp.pl' in url or url.endswith('.pdf')`. -/
def is_pdf_request (url : String) : Bool :=
  containsSubstring url "show_temp.pl" || url.endsWith ".pdf"

/-- The capture decision of the nested `intercept_pdf_response` handler
(lines 326-355): on a matching URL the response body is captured iff it
starts with the PDF magic bytes; `some` is the value stored into
`captured_pdf_content` (and later written to the file).  There is no
minimum-size check on this path. -/
def intercept_pdf_response (url : String) (body : List Nat) :
    Option (List Nat) :=
  if is_pdf_request url && pdf_magic.isPrefixOf body then some body else none

/-- The write decision of `download_pdf_from_url` (lines 260-289):
on HTTP 200, content under 100 bytes is rejected; content that does not
start with `%PDF` is rejected only when it starts with `<` (an HTML page),
otherwise the code falls through and writes it; `some` is the content
written to the target file, `none` means no file is created. -/
def download_pdf_from_url (status : Nat) (content : List Nat) :
    Option (List Nat) :=
  if status = 200 then
    if content.length < 100 then none
    else if pdf_magic.isPrefixOf content then some content
    else if htmlOpen.isPrefixOf content then none
    else some content
  else none

/-! ## Capture race event trace
(`click_view_document_and_download`, lines 296-524) -/

/-- Observable steps of `click_view_document_and_download`, in program
order. -/
inductive CaptureEv where
  | armPageListener
  | armContextRoute
  | blockWindowClose
  | clickViewDocument
  | removePageListener
  | unrouteContext
  | armPopupRoute
  | unroutePopup
  | saveInterceptedPdf
  | saveViewerDownload
  | checkOriginalPage
  | returnFailure
deriving DecidableEq, Repr

/-- Environment outcomes that steer the control flow of
`click_view_document_and_download`: whether the interception captured PDF
bytes during the 15 s wait, whether a popup appeared, whether the popup-page
interception captured bytes, and whether the PDF-viewer fallback download
succeeded on the popup or on the original page. -/
structure CaptureScenario where
  capturedAtWait : Bool
  popupAppeared : Bool
  capturedInPopup : Bool
  popupViewerOk : Bool
  origViewerOk : Bool
deriving DecidableEq, Repr

/-- The event trace of `click_view_document_and_download` for a given
scenario, following the source control flow: arm the new-page listener
(line 382) and the context-wide route interception (line 389), block
`window.close` (line 392), click View Document (line 404), wait, then in the
`finally` block remove the listener and unroute the context (lines 430-433);
save intercepted content if captured (lines 438-443); else, if a popup
appeared, arm route interception on the popup page (line 452), save if
captured there (lines 462-468), else try the PDF-viewer download
(lines 478-483) and unroute; finally fall back to checking the original page
(lines 493-511). -/
def click_view_document_trace (s : CaptureScenario) : List CaptureEv :=
  let case2 : List CaptureEv :=
    if s.origViewerOk then
      [CaptureEv.checkOriginalPage, CaptureEv.saveViewerDownload]
    else [CaptureEv.checkOriginalPage, CaptureEv.returnFailure]
  [CaptureEv.armPageListener, CaptureEv.armContextRoute,
   CaptureEv.blockWindowClose, CaptureEv.clickViewDocument,
   CaptureEv.removePageListener, CaptureEv.unrouteContext] ++
  (if s.capturedAtWait then [CaptureEv.saveInterceptedPdf]
   else if s.popupAppeared then
     CaptureEv.armPopupRoute ::
       (if s.capturedInPopup then
          [CaptureEv.saveInterceptedPdf, CaptureEv.unroutePopup]
        else if s.popupViewerOk then
          [CaptureEv.saveViewerDownload, CaptureEv.unroutePopup]
        else CaptureEv.unroutePopup :: case2)
   else case2)

/-- Events that arm an observation strategy. -/
def isArmEvent : CaptureEv → Bool
  | CaptureEv.armPageListener => true
  | CaptureEv.armContextRoute => true
  | CaptureEv.armPopupRoute => true
  | _ => false

/-- Whether some arming event occurs after the View Document click. -/
def anyArmAfterClick : List CaptureEv → Bool
  | [] => false
  | CaptureEv.clickViewDocument :: rest => rest.any isArmEvent
  | _ :: rest => anyArmAfterClick rest

/-- Whether every arming event after the View Document click is the popup-page
route interception. -/
def armsAfterClickOnlyPopupRoute : List CaptureEv → Bool
  | [] => true
  | CaptureEv.clickViewDocument :: rest =>
    rest.all (fun ev => !isArmEvent ev || ev == CaptureEv.armPopupRoute)
  | _ :: rest => armsAfterClickOnlyPopupRoute rest

/-! ## Case processing (backend/scraper/cmecf_scraper.py) -/

/-- The fields of the per-case `CaseNumber` result relevant here. -/
structure CaseResult where
  status : String
  transcripts_found : Nat
  transcripts_downloaded : Nat
  errors : List String
deriving DecidableEq, Repr

/-- `CMECFScraper._recover_to_results_page` (lines 347-363): re-submit the
case number and wait for the results page; each failing step raises a
`RuntimeError` whose message starts with `Recovery failed:`. -/
def recover_to_results_page (resubmitOk : Bool) (resultsLoadOk : Bool)
    (case_number : String) : Except String Unit :=
  if resubmitOk = false then
    Except.error ("Recovery failed: could not re-submit case number " ++ case_number)
  else if resultsLoadOk = false then
    Except.error ("Recovery failed: results page did not load for " ++ case_number)
  else Except.ok ()

/-- `CMECFScraper._navigate_back_to_results` (lines 315-345): the go-back
itself is wrapped in try/except (a failure only logs a warning); if the
results page is reached the method returns, otherwise it runs the recovery,
whose `RuntimeError` propagates. -/
def navigate_back_to_results (backOnResults : Bool)
    (recoverResult : Except String Unit) : Except String Unit :=
  if backOnResults then Except.ok () else recoverResult

/-- The per-entry loop of `CMECFScraper.process_case` (lines 188-220):
`dl idx` is the outcome of `process_transcript_entry` for entry `idx`
(that method catches all its exceptions, so it is a total Bool); after each
entry except the last, `_navigate_back_to_results` runs and may raise
(`nav idx`), which the enclosing try/except of `process_case` turns into a
failed case result with the exception message appended. -/
def entryLoop (dl : Nat → Bool) (nav : Nat → Except String Unit)
    (total : Nat) (idx : Nat) (downloaded : Nat) (errs : List String) :
    CaseResult :=
  if h : idx < total then
    let downloaded2 := if dl idx then downloaded + 1 else downloaded
    let errs2 := if dl idx then errs else errs ++ ["download failed"]
    if idx + 1 < total then
      match nav idx with
      | Except.ok _ => entryLoop dl nav total (idx + 1) downloaded2 errs2
      | Except.error e =>
        { status := "failed", transcripts_found := total
          transcripts_downloaded := downloaded2, errors := errs2 ++ [e] }
    else entryLoop dl nav total (idx + 1) downloaded2 errs2
  else
    { status := "completed", transcripts_found := total
      transcripts_downloaded := downloaded, errors := errs }
termination_by total - idx
decreasing_by all_goals omega

/-- `CMECFScraper.process_case` (lines 126-226): failure to submit the case
number or to load the results page fails the case early; with no transcript
entries the case completes; otherwise the entry loop runs under the
catch-all `except` that records any raised exception and returns the case
as failed. -/
def process_case (submitOk resultsOk : Bool) (numEntries : Nat)
    (dl : Nat → Bool) (nav : Nat → Except String Unit) : CaseResult :=
  if submitOk = false then
    { status := "failed", transcripts_found := 0
      transcripts_downloaded := 0, errors := ["Failed to submit case number"] }
  else if resultsOk = false then
    { status := "failed", transcripts_found := 0
      transcripts_downloaded := 0, errors := ["Failed to load results page"] }
  else if numEntries = 0 then
    { status := "completed", transcripts_found := 0
      transcripts_downloaded := 0, errors := [] }
  else entryLoop dl nav numEntries 0 0 []

/-- The environment of one case inside `run_scraping_job`: the inputs of
`process_case` plus `navToEntry`, the outcome of the
`await self._navigate_to_case_entry()` call that precedes this case when it
is not the first one (line 430); `_navigate_to_case_entry` re-raises its
navigation error (line 386). -/
structure CaseSpec where
  submitOk : Bool
  resultsOk : Bool
  numEntries : Nat
  dl : Nat → Bool
  nav : Nat → Except String Unit
  navToEntry : Except String Unit

/-- The job-level outcome of `CMECFScraper.run_scraping_job` (lines 388-474). -/
structure JobResult where
  cases_processed : Nat
  status : String
  case_results : List CaseResult

/-- The case loop of `run_scraping_job` (lines 418-443): for every case after
the first, `_navigate_to_case_entry` runs first (line 430) and its raised
error propagates to the job-level `except` (lines 462-471), which marks the
whole job failed with the cases processed so far; otherwise `process_case`
runs — total, thanks to its own catch-all `except` — its result is recorded,
and the loop continues.  When the loop finishes, the job reaches the
COMPLETED transition and `mark_completed` (lines 446-451). -/
def run_cases_loop (specs : List CaseSpec) (isFirst : Bool) (processed : Nat)
    (acc : List CaseResult) : JobResult :=
  match specs with
  | [] => { cases_processed := processed, status := "completed", case_results := acc }
  | c :: rest =>
    match (if isFirst then Except.ok () else c.navToEntry) with
    | Except.error _ =>
      { cases_processed := processed, status := "failed", case_results := acc }
    | Except.ok _ =>
      run_cases_loop rest false (processed + 1)
        (acc ++ [process_case c.submitOk c.resultsOk c.numEntries c.dl c.nav])

/-- `run_scraping_job` entered at the case loop with a fresh job. -/
def run_cases (specs : List CaseSpec) : JobResult :=
  run_cases_loop specs true 0 []

/-- The transition-log chain property claimed of the state machine: adjacent
history entries link (`state` of entry `i` is the `previous_state` of entry
`i+1`) and the last entry records the current state. -/
def chainProp (m : StateMachine) : Prop :=
  (∀ i a b, m.state_history.get? i = some a →
    m.state_history.get? (i + 1) = some b → b.previous_state = some a.state)
  ∧ (∀ a, m.state_history.getLast? = some a → a.state = m.current_state)

/-! ## Helper lemmas -/

theorem assocLookup_set_self (l : List (String × Future)) (k : String)
    (v : Future) : assocLookup (assocSet l k v) k = some v := by
  induction l with
  | nil => simp [assocSet, assocLookup, List.find?]
  | cons p rest ih =>
    obtain ⟨k0, v0⟩ := p
    by_cases h : k0 = k
    · subst h
      simp [assocSet, assocLookup, List.find?]
    · have hb : (k0 == k) = false := by simp [h]
      simp only [assocSet, hb, if_false, Bool.false_eq_true]
      simpa [assocLookup, List.find?, hb] using ih

theorem assocLookup_set_ne (l : List (String × Future)) (k k2 : String)
    (v : Future) (h : k2 ≠ k) :
    assocLookup (assocSet l k v) k2 = assocLookup l k2 := by
  induction l with
  | nil =>
    have hb : (k == k2) = false := beq_eq_false_iff_ne.mpr (Ne.symm h)
    simp [assocSet, assocLookup, List.find?, hb]
  | cons p rest ih =>
    obtain ⟨k0, v0⟩ := p
    by_cases h0 : k0 = k
    · subst h0
      have hb : (k0 == k2) = false := beq_eq_false_iff_ne.mpr (Ne.symm h)
      simp [assocSet, assocLookup, List.find?, hb]
    · have hb : (k0 == k) = false := by simp [h0]
      by_cases h2 : k0 = k2
      · subst h2
        simp [assocSet, assocLookup, List.find?, hb]
      · have hb2 : (k0 == k2) = false := by simp [h2]
        simp only [assocSet, hb, if_false, Bool.false_eq_true]
        simpa [assocLookup, List.find?, hb2] using ih

theorem chainProp_init : chainProp initStateMachine := by
  constructor
  · intro i a b ha _
    simp [initStateMachine] at ha
  · intro a ha
    simp [initStateMachine] at ha

theorem chainProp_step (m : StateMachine) (hm : chainProp m)
    (s : ScraperState) (msg : String) :
    chainProp (transition_to m s msg none).1 := by
  have hhist : (transition_to m s msg none).1.state_history
      = m.state_history ++
        [{ state := s, previous_state := some m.current_state, message := msg }] := rfl
  have hcur : (transition_to m s msg none).1.current_state = s := rfl
  constructor
  · intro i a b ha hb
    rw [hhist] at ha hb
    by_cases hi : i + 1 < m.state_history.length
    · rw [List.get?_append (by omega)] at ha
      rw [List.get?_append hi] at hb
      exact hm.1 i a b ha hb
    · have hlen : i + 1 < m.state_history.length + 1 := by
        by_contra hct
        rw [List.get?_eq_none.mpr (by simp; omega)] at hb
        exact Option.noConfusion hb
      have hieq : i + 1 = m.state_history.length := by omega
      have hbval : b = { state := s, previous_state := some m.current_state, message := msg } := by
        rw [hieq, List.get?_concat_length] at hb
        exact (Option.some.inj hb).symm
      have halast : m.state_history.getLast? = some a := by
        rw [List.get?_append (by omega)] at ha
        rw [List.getLast?_eq_get?]
        rw [show m.state_history.length - 1 = i by omega]
        exact ha
      rw [hbval]
      simp [hm.2 a halast]
  · intro a ha
    rw [hhist, List.getLast?_concat] at ha
    rw [hcur, ← Option.some.inj ha]

theorem chainProp_applyTransitions (ts : List (ScraperState × String))
    (m : StateMachine) (hm : chainProp m) :
    chainProp (applyTransitions m ts) := by
  induction ts generalizing m with
  | nil => exact hm
  | cons t ts ih =>
    exact ih (transition_to m t.1 t.2 none).1 (chainProp_step m hm t.1 t.2)

/-! ## Claim theorems -/

/-- C1, counterexample: with a pending, unresolved handle (future id 0) already
registered for session `job-1`, the registration step of
`wait_for_user_response` does not fail fast: it returns normally
(`Except.ok`, no error) and silently replaces the existing handle with the
fresh future (id 1). -/
theorem C1_counterexample :
    wait_for_user_response_register
        { active_connections := ["job-1"]
          pending_responses := [("job-1", newPendingFuture 0)] } "job-1" 1
      = Except.ok
          { active_connections := ["job-1"]
            pending_responses := [("job-1", newPendingFuture 1)] } := rfl

/-- C1, amended: registering a decision wait for a session never fails, even
when a pending, unresolved handle exists for that session; the fresh future
silently replaces (overwrites) the existing handle in `pending_responses`,
other sessions' handles and the connection map are unchanged. -/
theorem C1_register_replaces (m : ConnectionManager) (cid : String) (fid : Nat) :
    (∃ m2, wait_for_user_response_register m cid fid = Except.ok m2)
    ∧ (∀ m2, wait_for_user_response_register m cid fid = Except.ok m2 →
        assocLookup m2.pending_responses cid = some (newPendingFuture fid)
        ∧ (∀ c2, c2 ≠ cid →
            assocLookup m2.pending_responses c2 = assocLookup m.pending_responses c2)
        ∧ m2.active_connections = m.active_connections) := by
  constructor
  · exact ⟨_, rfl⟩
  · intro m2 h
    have h2 :
        ({ m with
            pending_responses :=
              assocSet m.pending_responses cid (newPendingFuture fid) } :
          ConnectionManager) = m2 :=
      Except.ok.inj h
    subst h2
    exact ⟨assocLookup_set_self _ _ _,
      fun c2 hc2 => assocLookup_set_ne _ _ _ _ hc2, rfl⟩

/-- C1, witness for the amended theorem at a concrete state with a pending
handle: registration succeeds and the handle for the session is the fresh
future. -/
theorem C1_register_replaces_witness :
    assocLookup
        ({ active_connections := ["job-1"]
           pending_responses := [("job-1", newPendingFuture 1)] } : ConnectionManager).pending_responses
        "job-1" = some (newPendingFuture 1) :=
  ((C1_register_replaces
      { active_connections := ["job-1"]
        pending_responses := [("job-1", newPendingFuture 0)] } "job-1" 1).2
    { active_connections := ["job-1"]
      pending_responses := [("job-1", newPendingFuture 1)] } rfl).1

/-- C2: delivering a response when no handle is outstanding for the session,
or when the outstanding handle is already resolved, is a no-op — the manager
(and hence the pending-handle map and every future) is unchanged — and a
handle is resolved at most once: a second delivery after a first one changes
nothing.  `set_user_response` is a total function (the method body has no
raise path), so no exception is possible. -/
theorem C2_set_user_response_noop (m : ConnectionManager) (cid : String)
    (r : UserResponse) :
    (assocLookup m.pending_responses cid = none → set_user_response m cid r = m)
    ∧ (∀ f, assocLookup m.pending_responses cid = some f → f.done = true →
        set_user_response m cid r = m)
    ∧ (∀ r2, set_user_response (set_user_response m cid r) cid r2
        = set_user_response m cid r) := by
  refine ⟨?_, ?_, ?_⟩
  · intro h
    unfold set_user_response
    rw [h]
  · intro f hf hd
    unfold set_user_response
    rw [hf]
    simp [hd]
  · intro r2
    cases h : assocLookup m.pending_responses cid with
    | none =>
      have h1 : set_user_response m cid r = m := by
        unfold set_user_response; rw [h]
      rw [h1]
      unfold set_user_response
      rw [h]
    | some f =>
      by_cases hd : f.done = true
      · have h1 : set_user_response m cid r = m := by
          unfold set_user_response; rw [h]; simp [hd]
        rw [h1]
        unfold set_user_response
        rw [h]
        simp [hd]
      · have h1 : set_user_response m cid r
            = { m with
                pending_responses :=
                  assocSet m.pending_responses cid
                    ({ f with done := true, result := some r }) } := by
          unfold set_user_response; rw [h]; simp [hd]
        rw [h1]
        unfold set_user_response
        simp [assocLookup_set_self]

/-- C2, witness: delivering a response with no handle outstanding leaves the
manager unchanged. -/
theorem C2_set_user_response_noop_witness :
    set_user_response { active_connections := [], pending_responses := [] }
        "job-1" { data := none }
      = { active_connections := [], pending_responses := [] } :=
  (C2_set_user_response_noop
    { active_connections := [], pending_responses := [] } "job-1"
    { data := none }).1 (by decide)

/-- C3, counterexample: 100 bytes of `G` (71) — neither a PDF nor HTML — are
accepted and written by `download_pdf_from_url` even though they do not start
with the PDF magic bytes; and on the interception path a 4-byte body
consisting of just `%PDF` is captured (and hence written) with no
minimum-size check. -/
theorem C3_counterexample :
    download_pdf_from_url 200 (List.replicate 100 71)
        = some (List.replicate 100 71)
    ∧ pdf_magic.isPrefixOf (List.replicate 100 71) = false
    ∧ intercept_pdf_response "https://ecf.example.gov/cgi-bin/show_temp.pl?i=1"
        [37, 80, 68, 70] = some [37, 80, 68, 70]
    ∧ ([37, 80, 68, 70] : List Nat).length < 100 := by
  decide

/-- C3, amended: each capture path applies exactly its own gate.  Bytes
written by `download_pdf_from_url` are the downloaded content, require HTTP
200 and at least 100 bytes, and either start with `%PDF` or merely do not
start with `<` (non-PDF, non-HTML content of 100 bytes or more is still
written); bytes captured by `intercept_pdf_response` always start with
`%PDF` (with no minimum-size check) and come from a matching PDF request.
On every other input no bytes are produced, so no file is written when no
strategy yields content. -/
theorem C3_gates_as_implemented :
    (∀ (status : Nat) (content out : List Nat),
      download_pdf_from_url status content = some out →
        out = content ∧ status = 200 ∧ 100 ≤ out.length
        ∧ (pdf_magic.isPrefixOf out = true ∨ htmlOpen.isPrefixOf out = false))
    ∧ (∀ (url : String) (body out : List Nat),
      intercept_pdf_response url body = some out →
        out = body ∧ pdf_magic.isPrefixOf out = true
        ∧ is_pdf_request url = true) := by
  constructor
  · intro status content out h
    unfold download_pdf_from_url at h
    by_cases h1 : status = 200
    · rw [if_pos h1] at h
      by_cases h2 : content.length < 100
      · rw [if_pos h2] at h
        exact Option.noConfusion h
      · rw [if_neg h2] at h
        by_cases h3 : pdf_magic.isPrefixOf content = true
        · rw [if_pos h3] at h
          cases Option.some.inj h
          exact ⟨rfl, h1, by omega, Or.inl h3⟩
        · rw [if_neg h3] at h
          by_cases h4 : htmlOpen.isPrefixOf content = true
          · rw [if_pos h4] at h
            exact Option.noConfusion h
          · rw [if_neg h4] at h
            cases Option.some.inj h
            have h5 : htmlOpen.isPrefixOf content = false := by
              cases hb : htmlOpen.isPrefixOf content
              · rfl
              · exact absurd hb h4
            exact ⟨rfl, h1, by omega, Or.inr h5⟩
    · rw [if_neg h1] at h
      exact Option.noConfusion h
  · intro url body out h
    unfold intercept_pdf_response at h
    by_cases h1 : (is_pdf_request url && pdf_magic.isPrefixOf body) = true
    · rw [if_pos h1] at h
      cases Option.some.inj h
      simp only [Bool.and_eq_true] at h1
      exact ⟨rfl, h1.2, h1.1⟩
    · rw [if_neg h1] at h
      exact Option.noConfusion h

/-- C3, witness for the amended theorem: a valid 100-byte PDF download passes
the direct-download gate. -/
theorem C3_gates_witness :
    100 ≤ (pdf_magic ++ List.replicate 96 32 : List Nat).length :=
  ((C3_gates_as_implemented.1 200 (pdf_magic ++ List.replicate 96 32)
    (pdf_magic ++ List.replicate 96 32) (by decide)).2.2).1

/-- C4, counterexample: an observer that raises makes `transition_to`
propagate the exception (the call returns the observer's error rather than
swallowing it). -/
theorem C4_counterexample :
    (transition_to initStateMachine ScraperState.searching "notify"
        (some (fun _ _ _ => Except.error "observer boom"))).2
      = Except.error "observer boom" := rfl

/-- C4, amended: `transition_to` updates `current_state` and appends the
history entry before invoking the observer, so the transition itself
completes for every observer; but there is no try/except around the
callback: with no observer the call returns normally, and with an observer
the call's outcome is exactly the observer's outcome — an observer exception
propagates out of `transition_to` unswallowed.  (The observers actually
registered, `_on_state_change` in both scrapers, catch their own failures
inside `send_event`.) -/
theorem C4_transition_completes_but_observer_error_propagates
    (m : StateMachine) (s : ScraperState) (msg : String) (obs : Option Observer) :
    (transition_to m s msg obs).1.current_state = s
    ∧ (transition_to m s msg obs).1.state_history
        = m.state_history ++
          [{ state := s, previous_state := some m.current_state, message := msg }]
    ∧ (obs = none → (transition_to m s msg obs).2 = Except.ok ())
    ∧ (∀ f, obs = some f →
        (transition_to m s msg obs).2 = f s (some m.current_state) msg) := by
  cases obs with
  | none =>
    refine ⟨rfl, rfl, fun _ => rfl, ?_⟩
    intro f hf
    exact Option.noConfusion hf
  | some g =>
    refine ⟨rfl, rfl, ?_, ?_⟩
    · intro hf
      exact Option.noConfusion hf
    · intro f hf
      rw [← Option.some.inj hf]
      rfl

/-- C4, witness for the amended theorem: with no observer registered the
transition returns normally. -/
theorem C4_transition_witness :
    (transition_to initStateMachine ScraperState.initializing "start" none).2
      = Except.ok () :=
  (C4_transition_completes_but_observer_error_propagates initStateMachine
    ScraperState.initializing "start" none).2.2.1 rfl

/-- C5, counterexample: disconnecting session `job-1` while its decision wait
is outstanding removes the connection but leaves the pending handle in place
and unresolved (`done = false`, no cancelled sentinel), so the waiting
workflow task keeps waiting. -/
theorem C5_counterexample :
    disconnect
        { active_connections := ["job-1"]
          pending_responses := [("job-1", newPendingFuture 0)] } "job-1"
      = { active_connections := []
          pending_responses := [("job-1", newPendingFuture 0)] }
    ∧ (assocLookup
        (disconnect
          { active_connections := ["job-1"]
            pending_responses := [("job-1", newPendingFuture 0)] } "job-1").pending_responses
        "job-1").map Future.done = some false := by
  decide

/-- C5, amended: neither `disconnect` nor the `websocket_endpoint` disconnect
handlers (which only call `disconnect`) touch `pending_responses`: an
outstanding decision handle is left exactly as it was, so the waiting
workflow task is not released early and runs to its own timeout. -/
theorem C5_disconnect_leaves_pending (m : ConnectionManager) (cid : String) :
    (disconnect m cid).pending_responses = m.pending_responses
    ∧ websocket_endpoint_on_disconnect m cid = disconnect m cid
    ∧ assocLookup (disconnect m cid).pending_responses cid
        = assocLookup m.pending_responses cid := by
  refine ⟨?_, rfl, ?_⟩ <;> unfold disconnect <;> split <;> rfl

/-- C6: after construction or a reset, any sequence of `transition_to` calls
leaves a transition log that forms a chain — the recorded state of entry `i`
is the recorded `previous_state` of entry `i+1`, and the last entry's state
is the machine's `current_state` (`reset` returns exactly the freshly
constructed machine). -/
theorem C6_history_chain (ts : List (ScraperState × String)) (m0 : StateMachine) :
    StateMachine.reset m0 = initStateMachine
    ∧ (∀ i a b,
        (applyTransitions (StateMachine.reset m0) ts).state_history.get? i = some a →
        (applyTransitions (StateMachine.reset m0) ts).state_history.get? (i + 1) = some b →
        b.previous_state = some a.state)
    ∧ (∀ a,
        (applyTransitions (StateMachine.reset m0) ts).state_history.getLast? = some a →
        a.state = (applyTransitions (StateMachine.reset m0) ts).current_state) := by
  have h := chainProp_applyTransitions ts (StateMachine.reset m0) chainProp_init
  exact ⟨rfl, h.1, h.2⟩

/-- C6, witness: for the concrete run idle → searching → completed, the second
log entry's `previous_state` is the first entry's state. -/
theorem C6_history_chain_witness :
    ({ state := ScraperState.completed
       previous_state := some ScraperState.searching
       message := "b" } : HistoryEntry).previous_state
      = some ScraperState.searching :=
  (C6_history_chain
      [(ScraperState.searching, "a"), (ScraperState.completed, "b")]
      initStateMachine).2.1 0
    { state := ScraperState.searching
      previous_state := some ScraperState.idle, message := "a" }
    { state := ScraperState.completed
      previous_state := some ScraperState.searching, message := "b" }
    (by decide) (by decide)

/-- C7, counterexample: in the run where no PDF is captured during the initial
wait and a popup appears, the trace of `click_view_document_and_download`
contains an arming event (route interception on the popup page, line 452)
after the View Document click — refuting that every strategy is armed before
the trigger. -/
theorem C7_counterexample :
    anyArmAfterClick (click_view_document_trace
      { capturedAtWait := false, popupAppeared := true, capturedInPopup := false
        popupViewerOk := false, origViewerOk := false }) = true := by
  decide

/-- C7, amended: in every run, the new-page listener and the context-wide
route interception are armed (in that order) before the View Document click;
the only arming that can occur after the click is the re-arming of the same
interception handler on the popup page, a page that exists only after the
click. -/
theorem C7_arming_order (s : CaptureScenario) :
    (click_view_document_trace s).take 4
      = [CaptureEv.armPageListener, CaptureEv.armContextRoute,
         CaptureEv.blockWindowClose, CaptureEv.clickViewDocument]
    ∧ armsAfterClickOnlyPopupRoute (click_view_document_trace s) = true := by
  obtain ⟨a, b, c, d, e⟩ := s
  cases a <;> cases b <;> cases c <;> cases d <;> cases e <;> decide

/-- C8: the decision wait in `_handle_court_selection` uses a 300-second
timeout, and when the operator never responds (the wait returns the timeout
value `none`) the handler returns the first offered option and logs the
timeout warning (the Bool component). -/
theorem C8_timeout_first_option :
    court_selection_timeout_seconds = 300
    ∧ ∀ (c : String) (cs : List String),
        handle_court_selection none (c :: cs) = some (c, true) :=
  ⟨rfl, fun _ _ => rfl⟩

/-- C10: `send_event` never raises — for every manager state, client and
serialization/send outcome it returns normally; with no active connection
for the client it is a no-op, and a failure during serialization or send is
caught and logged at error level instead of propagating. -/
theorem C10_send_event_never_raises (m : ConnectionManager) (cid : String)
    (attempt : Except String Unit) :
    (∃ out, send_event m cid attempt = Except.ok out)
    ∧ (m.active_connections.contains cid = false →
        send_event m cid attempt = Except.ok SendOutcome.noConnection)
    ∧ (∀ e, attempt = Except.error e →
        m.active_connections.contains cid = true →
        send_event m cid attempt = Except.ok (SendOutcome.errorLogged e)) := by
  unfold send_event
  have hP : ∀ (b : Bool), b = false → ¬b = true := by
    intro b hb
    rw [hb]
    exact Bool.false_ne_true
  refine ⟨?_, ?_, ?_⟩
  · cases h : m.active_connections.contains cid
    · exact ⟨SendOutcome.noConnection, rfl⟩
    · cases attempt with
      | ok u => exact ⟨SendOutcome.sentLogged, rfl⟩
      | error e => exact ⟨SendOutcome.errorLogged e, rfl⟩
  · intro h
    rw [if_neg (hP _ h)]
  · intro e he h
    subst he
    rw [if_pos h]

theorem entryLoop_recovery_fail (dl : Nat → Bool) (nav : Nat → Except String Unit)
    (total k : Nat) (e : String) (hk : k + 1 < total)
    (hnav : nav k = Except.error e) (hok : ∀ j, j < k → nav j = Except.ok ()) :
    ∀ (n idx downloaded : Nat) (errs : List String), k - idx = n → idx ≤ k →
      (entryLoop dl nav total idx downloaded errs).status = "failed"
      ∧ e ∈ (entryLoop dl nav total idx downloaded errs).errors
      ∧ (entryLoop dl nav total idx downloaded errs).transcripts_downloaded
          ≤ downloaded + (k + 1 - idx) := by
  intro n
  induction n with
  | zero =>
    intro idx downloaded errs hn hle
    have hik : idx = k := by omega
    subst hik
    have h1 : idx < total := by omega
    rw [entryLoop, dif_pos h1, if_pos (by omega : idx + 1 < total), hnav]
    refine ⟨rfl, ?_, ?_⟩
    · show e ∈ (if dl idx then errs else errs ++ ["download failed"]) ++ [e]
      exact List.mem_append_right _ (List.mem_singleton.mpr rfl)
    · show (if dl idx then downloaded + 1 else downloaded)
          ≤ downloaded + (idx + 1 - idx)
      cases dl idx <;> simp <;> omega
  | succ n ih =>
    intro idx downloaded errs hn hle
    have hik : idx < k := by omega
    have h1 : idx < total := by omega
    have h2 : idx + 1 < total := by omega
    rw [entryLoop, dif_pos h1, if_pos h2, hok idx hik]
    have h3 := ih (idx + 1) (if dl idx then downloaded + 1 else downloaded)
      (if dl idx then errs else errs ++ ["download failed"]) (by omega) (by omega)
    refine ⟨h3.1, h3.2.1, le_trans h3.2.2 ?_⟩
    cases dl idx <;> simp <;> omega

theorem run_cases_loop_all_ok (specs : List CaseSpec)
    (hnav : ∀ s ∈ specs, s.navToEntry = Except.ok ()) :
    ∀ (isFirst : Bool) (processed : Nat) (acc : List CaseResult),
      run_cases_loop specs isFirst processed acc
        = { cases_processed := processed + specs.length
            status := "completed"
            case_results := acc ++ specs.map (fun c =>
              process_case c.submitOk c.resultsOk c.numEntries c.dl c.nav) } := by
  induction specs with
  | nil =>
    intro isFirst processed acc
    simp [run_cases_loop]
  | cons c rest ih =>
    intro isFirst processed acc
    have hc : c.navToEntry = Except.ok () := hnav c (by simp)
    have hrest : ∀ s ∈ rest, s.navToEntry = Except.ok () :=
      fun s hs => hnav s (by simp [hs])
    have hstep : run_cases_loop (c :: rest) isFirst processed acc
        = run_cases_loop rest false (processed + 1)
            (acc ++ [process_case c.submitOk c.resultsOk c.numEntries c.dl c.nav]) := by
      cases isFirst
      · rw [run_cases_loop]
        rw [show (if (false : Bool) then Except.ok () else c.navToEntry)
            = Except.ok () from by rw [if_neg (by simp)]; exact hc]
      · rfl
    rw [hstep, ih hrest]
    simp only [JobResult.mk.injEq, List.map_cons, List.length_cons]
    refine ⟨by omega, trivial, ?_⟩
    rw [List.append_assoc]
    simp

/-- C9: when recovery fails while returning to the results page — the
navigate-back for entry `k` raises the distinguished `Recovery failed:`
error — `process_case` catches it: the remaining entries of that case are
abandoned (at most the first `k+1` entries were downloaded), the case is
recorded as failed with the recovery error in its error list; and provided
the between-case `_navigate_to_case_entry` steps return normally (whose
raised error would instead fail the whole job at the job-level except), the
job loop of `run_scraping_job` still processes every case (one result per
case, including the failed one in place) and completes. -/
theorem C9_recovery_fail_per_case (pre post : List CaseSpec) (c : CaseSpec)
    (k : Nat) (e : String)
    (hsub : c.submitOk = true) (hres : c.resultsOk = true)
    (hk : k + 1 < c.numEntries)
    (hnav : c.nav k = Except.error e)
    (hok : ∀ j, j < k → c.nav j = Except.ok ())
    (hdist : ("Recovery failed:".toList).isPrefixOf e.toList = true)
    (hentry : ∀ s ∈ pre ++ c :: post, s.navToEntry = Except.ok ()) :
    (process_case c.submitOk c.resultsOk c.numEntries c.dl c.nav).status = "failed"
    ∧ e ∈ (process_case c.submitOk c.resultsOk c.numEntries c.dl c.nav).errors
    ∧ (process_case c.submitOk c.resultsOk c.numEntries c.dl c.nav).transcripts_downloaded
        ≤ k + 1
    ∧ (run_cases (pre ++ c :: post)).status = "completed"
    ∧ (run_cases (pre ++ c :: post)).cases_processed = pre.length + post.length + 1
    ∧ (run_cases (pre ++ c :: post)).case_results.get? pre.length
        = some (process_case c.submitOk c.resultsOk c.numEntries c.dl c.nav) := by
  have hpc : process_case c.submitOk c.resultsOk c.numEntries c.dl c.nav
      = entryLoop c.dl c.nav c.numEntries 0 0 [] := by
    unfold process_case
    rw [if_neg (by simp [hsub]), if_neg (by simp [hres]),
      if_neg (by omega : ¬c.numEntries = 0)]
  have hel := entryLoop_recovery_fail c.dl c.nav c.numEntries k e hk hnav hok
    k 0 0 [] (by omega) (by omega)
  have hrc : run_cases (pre ++ c :: post)
      = { cases_processed := 0 + (pre ++ c :: post).length
          status := "completed"
          case_results := [] ++ (pre ++ c :: post).map (fun s =>
            process_case s.submitOk s.resultsOk s.numEntries s.dl s.nav) } := by
    unfold run_cases
    exact run_cases_loop_all_ok (pre ++ c :: post) hentry true 0 []
  refine ⟨by rw [hpc]; exact hel.1, by rw [hpc]; exact hel.2.1, ?_, by rw [hrc], ?_, ?_⟩
  · rw [hpc]
    have h4 := hel.2.2
    omega
  · rw [hrc]
    simp
    omega
  · rw [hrc]
    simp only [List.nil_append, List.map_append, List.map_cons]
    rw [List.get?_append_right (by simp)]
    simp

/-- C9, witness: a two-entry case whose first navigate-back lands off the
results page and whose recovery re-submission fails is recorded as failed
with the distinguished recovery error, while the one-case job completes. -/
theorem C9_recovery_fail_witness :
    (process_case true true 2 (fun _ => true)
        (fun _ => navigate_back_to_results false
          (recover_to_results_page false true "23-cv-1"))).status = "failed" :=
  (C9_recovery_fail_per_case [] []
    { submitOk := true, resultsOk := true, numEntries := 2
      dl := fun _ => true
      nav := fun _ => navigate_back_to_results false
        (recover_to_results_page false true "23-cv-1")
      navToEntry := Except.ok () }
    0 "Recovery failed: could not re-submit case number 23-cv-1"
    rfl rfl (by decide) rfl
    (fun j hj => absurd hj (Nat.not_lt_zero j)) (by decide)
    (by intro s hs; simp at hs; subst hs; rfl)).1

/-- C10, witness: sending to a client with no active connection is a no-op
that returns normally. -/
theorem C10_send_event_witness :
    send_event { active_connections := [], pending_responses := [] } "job-1"
        (Except.ok ()) = Except.ok SendOutcome.noConnection :=
  (C10_send_event_never_raises
    { active_connections := [], pending_responses := [] } "job-1"
    (Except.ok ())).2.1 (by decide)

end ScraperCz
